import Mathlib

/-!
# Verification of the BurnAI data-processing pipeline

A shallow embedding of `backend/process_data.py` over exact rationals.
Machine floats are modelled by `ℚ`; Python's `int()` truncation is
`pyInt`; pandas tables become lists of records, with a column that may be
absent modelled as an `Option`; file contents are supplied by oracle
functions from file entries to parsed records.
-/

namespace BurnAI

/-- Python `int()`: truncation toward zero. -/
def pyInt (q : ℚ) : ℤ := if q < 0 then ⌈q⌉ else ⌊q⌋

/-- The aggregated per-region summary fed into the scoring model
(`RegionSummary` of the data model). -/
structure RegionSummary where
  recentFireCount : ℚ
  meanFrp : ℚ
  meanTemperature : ℚ
  meanHumidity : ℚ
  meanWindSpeed : ℚ
  meanNdvi : ℚ
  deriving DecidableEq

/-- The fixed factor weights of `calculate_suitability_score`
(`weights = [-0.2, -0.1, -0.15, 0.25, -0.2, 0.1]`). -/
def weights : List ℚ := [-(1/5), -(1/10), -(3/20), 1/4, -(1/5), 1/10]

/-- `calculate_suitability_score` from `process_data.py`: normalize the six
factors, take the weighted sum of factors and weights, map to a 0-100 scale
and clamp. -/
def calculate_suitability_score (recent_fires avg_frp temperature humidity
    wind_speed ndvi : ℚ) : ℚ :=
  let normalized_factors : List ℚ :=
    [min 1 (recent_fires / 20),
     min 1 (avg_frp / 1000),
     (temperature - 50) / 50,
     humidity / 100,
     wind_speed / 20,
     ndvi]
  let weighted_sum := (List.zipWith (· * ·) normalized_factors weights).sum
  max 0 (min 100 (50 + weighted_sum * 50))

/-- The normalized factor list of the scoring model, as a function of the
summary: only the fire-count and FRP factors are capped with `min`. -/
def normalizedFactors (s : RegionSummary) : List ℚ :=
  [min 1 (s.recentFireCount / 20),
   min 1 (s.meanFrp / 1000),
   (s.meanTemperature - 50) / 50,
   s.meanHumidity / 100,
   s.meanWindSpeed / 20,
   s.meanNdvi]

/-- The weighted sum of the normalized factors. -/
def weightedSum (s : RegionSummary) : ℚ :=
  (List.zipWith (· * ·) (normalizedFactors s) weights).sum

/-- The suitability score of a summary: `calculate_suitability_score`
applied to its six fields. -/
def suitability (s : RegionSummary) : ℚ :=
  calculate_suitability_score s.recentFireCount s.meanFrp s.meanTemperature
    s.meanHumidity s.meanWindSpeed s.meanNdvi

/-- `riskLevel` bucketing of `process_data_by_county` (line 196). -/
def riskLevelOf (score : ℚ) : String :=
  if score > 80 then "Low" else if score > 60 then "Moderate" else "High"

/-- `riskColor` bucketing of `process_data_by_county` (line 197). -/
def riskColorOf (score : ℚ) : String :=
  if score > 80 then "green" else if score > 60 then "yellow" else "red"

/-- `hazardProximity` bucketing of `process_data_by_county` (line 188). -/
def hazardProximityOf (score : ℚ) : String :=
  if score > 80 then "Low" else if score > 60 then "Medium" else "High"

/-- The general risk score `int(suitability_score * 0.7)` (line 195). -/
def riskScoreOf (score : ℚ) : ℤ := pyInt (score * (7/10))

/-- `firmsScore = int(100 - suitability_score * 0.5)` (line 200). -/
def firmsScoreOf (score : ℚ) : ℤ := pyInt (100 - score * (1/2))

/-- `historicalScore = int(100 - suitability_score * 0.6)` (line 202). -/
def historicalScoreOf (score : ℚ) : ℤ := pyInt (100 - score * (3/5))

/-- The concrete scenario summary of the spec's testable-properties
section. -/
def scenarioSummary : RegionSummary :=
  { recentFireCount := 10, meanFrp := 2, meanTemperature := 75,
    meanHumidity := 40, meanWindSpeed := 8, meanNdvi := 1/2 }

/-- The scenario summary with wind speed 100 mph: its wind factor is 5. -/
def windySummary : RegionSummary :=
  { recentFireCount := 10, meanFrp := 2, meanTemperature := 75,
    meanHumidity := 40, meanWindSpeed := 100, meanNdvi := 1/2 }

/-- The scenario summary with 40 recent fires (above the cap of 20). -/
def cappedSummaryA : RegionSummary :=
  { recentFireCount := 40, meanFrp := 2, meanTemperature := 75,
    meanHumidity := 40, meanWindSpeed := 8, meanNdvi := 1/2 }

/-- The scenario summary with 60 recent fires (above the cap of 20). -/
def cappedSummaryB : RegionSummary :=
  { recentFireCount := 60, meanFrp := 2, meanTemperature := 75,
    meanHumidity := 40, meanWindSpeed := 8, meanNdvi := 1/2 }

/-- The scenario summary with the extreme fire count 10000. -/
def extremeSummary : RegionSummary :=
  { recentFireCount := 10000, meanFrp := 2, meanTemperature := 75,
    meanHumidity := 40, meanWindSpeed := 8, meanNdvi := 1/2 }

/-- A rectangular geographic bounding box, as in the `COUNTIES` table. -/
structure Bounds where
  minlat : ℚ
  maxlat : ℚ
  minlon : ℚ
  maxlon : ℚ
  deriving DecidableEq

/-- A region of the registry: dict key (name) plus the `id` and `bounds`
fields of the `COUNTIES` entry. -/
structure County where
  id : String
  name : String
  bounds : Bounds
  deriving DecidableEq

/-- The containment test of `assign_to_county` (and of the per-county fire
filter): all four edges inclusive. -/
def boundsContain (b : Bounds) (lat lon : ℚ) : Bool :=
  decide (b.minlat ≤ lat ∧ lat ≤ b.maxlat ∧ b.minlon ≤ lon ∧ lon ≤ b.maxlon)

/-- The San Francisco entry of the `COUNTIES` registry. -/
def sfCounty : County :=
  { id := "sf", name := "San Francisco",
    bounds := { minlat := 377/10, maxlat := 378/10,
                minlon := -(1225/10), maxlon := -(1223/10) } }

/-- The Los Angeles entry of the `COUNTIES` registry. -/
def laCounty : County :=
  { id := "la", name := "Los Angeles",
    bounds := { minlat := 337/10, maxlat := 348/10,
                minlon := -(1187/10), maxlon := -(1177/10) } }

/-- The `COUNTIES` registry in its fixed (dict-insertion) order. -/
def COUNTIES : List County := [sfCounty, laCounty]

/-- `assign_to_county`, parameterized by the registry so that constructed
fixtures can be substituted: first region in registry order whose bounds
contain the point, `none` if no region matches. -/
def assign_to_county (regs : List County) (lat lon : ℚ) : Option String :=
  match regs with
  | [] => none
  | c :: rest =>
      if boundsContain c.bounds lat lon then some c.id
      else assign_to_county rest lat lon

/-- One fire-detection record (row of the fire CSV used by processing). -/
structure FirePoint where
  latitude : ℚ
  longitude : ℚ
  frp : ℚ
  deriving DecidableEq

/-- The per-county fire filter of `process_data_by_county` (lines 150-155):
rows of the fire table whose coordinates lie within this county's bounds. -/
def countyFires (b : Bounds) (fires : List FirePoint) : List FirePoint :=
  fires.filter (fun p => boundsContain b p.latitude p.longitude)

/-- `recent_fires = len(county_fire_df)` (line 158). -/
def recent_fires (b : Bounds) (fires : List FirePoint) : ℕ :=
  (countyFires b fires).length

/-- pandas column mean. -/
def listMean (xs : List ℚ) : ℚ := xs.sum / xs.length

/-- `avg_frp = county_fire_df['frp'].mean() if not empty else 0`
(line 161). -/
def avg_frp (b : Bounds) (fires : List FirePoint) : ℚ :=
  let cf := countyFires b fires
  if cf.isEmpty then 0 else listMean (cf.map FirePoint.frp)

/-- The combined weather table: each column is `some` list of values when
the column is present, `none` when it is absent. -/
structure WeatherTable where
  tavg : Option (List ℚ)
  rhavg : Option (List ℚ)
  awnd : Option (List ℚ)
  deriving DecidableEq

/-- The per-county weather summary dictionary. -/
structure WeatherConditions where
  temperature : ℚ
  humidity : ℚ
  windSpeed : ℚ
  windDirection : String
  deriving DecidableEq

/-- `county_weather` of `process_data_by_county` (lines 165-170): column
means with defaults 70 / 50 / 5 when a column is absent, and the constant
wind direction "NW". -/
def county_weather (w : WeatherTable) : WeatherConditions :=
  { temperature := match w.tavg with | some xs => listMean xs | none => 70,
    humidity := match w.rhavg with | some xs => listMean xs | none => 50,
    windSpeed := match w.awnd with | some xs => listMean xs | none => 5,
    windDirection := "NW" }

/-- `county_ndvi` (line 174): mean of the `ndvi` column, `0.5` when the
column is absent. -/
def county_ndvi (veg : Option (List ℚ)) : ℚ :=
  match veg with
  | some xs => listMean xs
  | none => 1/2

/-- A weather table whose `TAVG` column is absent. -/
def noTavgTable : WeatherTable :=
  { tavg := none, rhavg := some [40], awnd := some [8] }

/-- A CSV cell value of a processed-output record. -/
inductive Value where
  | str : String → Value
  | int : ℤ → Value
  | rat : ℚ → Value
  | coords : ℚ → ℚ → Value
  | nested : List (String × Value) → Value

/-- The per-county record dictionary built by `process_data_by_county`
(lines 191-209), in its key order. -/
def county_record (c : County) (fires : List FirePoint) (w : WeatherTable)
    (veg : Option (List ℚ)) : List (String × Value) :=
  let rc := recent_fires c.bounds fires
  let frp := avg_frp c.bounds fires
  let cw := county_weather w
  let ndvi := county_ndvi veg
  let s := calculate_suitability_score rc frp cw.temperature cw.humidity
    cw.windSpeed ndvi
  [("id", Value.str c.id),
   ("name", Value.str c.name),
   ("coordinates", Value.coords ((c.bounds.minlat + c.bounds.maxlat) / 2)
      ((c.bounds.minlon + c.bounds.maxlon) / 2)),
   ("score", Value.int (riskScoreOf s)),
   ("riskLevel", Value.str (riskLevelOf s)),
   ("riskColor", Value.str (riskColorOf s)),
   ("recentFires", Value.int rc),
   ("heatMW", Value.int (pyInt frp)),
   ("firmsScore", Value.int (firmsScoreOf s)),
   ("historicalAvg",
     Value.str (toString (max 1 (pyInt (rc * (4/5)))) ++ " fires/week")),
   ("historicalScore", Value.int (historicalScoreOf s)),
   ("suitabilityScore", Value.int (pyInt s)),
   ("weatherConditions", Value.nested
     [("temperature", Value.rat cw.temperature),
      ("humidity", Value.rat cw.humidity),
      ("windSpeed", Value.rat cw.windSpeed),
      ("windDirection", Value.str cw.windDirection)]),
   ("hazardProximity", Value.str (hazardProximityOf s)),
   ("firePersonnel", Value.int (if c.id = "sf" then 15 else 12)),
   ("equipmentStatus", Value.str "Ready"),
   ("permitStatus", Value.str (if c.id = "sf" then "Approved" else "Pending"))]

/-- The flattening step of `save_processed_data` (lines 274-280): remove the
nested `weatherConditions` entry and append its fields with a `weather_`
key prefix. -/
def flattenRecord (data : List (String × Value)) : List (String × Value) :=
  match data.lookup "weatherConditions" with
  | some (Value.nested wc) =>
      (data.filter (fun kv => kv.1 != "weatherConditions"))
        ++ wc.map (fun kv => ("weather_" ++ kv.1, kv.2))
  | _ => data

/-- `save_processed_data` (lines 265-299): the first component is the list
of per-county files (each record flattened), the second is the combined
file, written from the raw, unflattened records. -/
def save_processed_data (countyData : List (List (String × Value))) :
    List (List (String × Value)) × List (List (String × Value)) :=
  (countyData.map flattenRecord, countyData)

/-- The column set of a record, in order. -/
def recordKeys (r : List (String × Value)) : List String := r.map Prod.fst

/-- The key order of the raw (unflattened) per-county record. -/
def rawRecordKeys : List String :=
  ["id", "name", "coordinates", "score", "riskLevel", "riskColor",
   "recentFires", "heatMW", "firmsScore", "historicalAvg",
   "historicalScore", "suitabilityScore", "weatherConditions",
   "hazardProximity", "firePersonnel", "equipmentStatus", "permitStatus"]

/-- The key order of a flattened per-county record. -/
def flatRecordKeys : List String :=
  ["id", "name", "coordinates", "score", "riskLevel", "riskColor",
   "recentFires", "heatMW", "firmsScore", "historicalAvg",
   "historicalScore", "suitabilityScore",
   "hazardProximity", "firePersonnel", "equipmentStatus", "permitStatus",
   "weather_temperature", "weather_humidity", "weather_windSpeed",
   "weather_windDirection"]

/-- A directory entry with its creation timestamp. -/
structure FileEntry where
  name : String
  ctime : ℚ
  deriving DecidableEq

/-- Python `max(files, key=os.path.getctime)`: keep the current candidate
unless a strictly later entry appears. -/
def maxByCtime (best : FileEntry) : List FileEntry → FileEntry
  | [] => best
  | f :: rest =>
      if best.ctime < f.ctime then maxByCtime f rest else maxByCtime best rest

/-- `get_latest_file` (lines 57-62): `None` when no entry matches the
pattern, otherwise the match with the most recent creation timestamp. -/
def get_latest_file (entries : List FileEntry) (pat : String → Bool) :
    Option FileEntry :=
  match entries.filter (fun e => pat e.name) with
  | [] => none
  | f :: rest => some (maxByCtime f rest)

/-- The glob pattern `california_fires_*.csv` of `load_fire_data`. -/
def isFireFile (n : String) : Bool :=
  "california_fires_".data.isPrefixOf n.data && ".csv".data.isSuffixOf n.data

/-- The glob pattern `*_ndvi.csv` of `load_vegetation_data`. -/
def isVegFile (n : String) : Bool := "_ndvi.csv".data.isSuffixOf n.data

/-- `load_fire_data` (lines 64-78): select the latest fire snapshot and
parse it; `None` when no file matches. -/
def load_fire_data (entries : List FileEntry)
    (content : FileEntry → List FirePoint) : Option (List FirePoint) :=
  (get_latest_file entries isFireFile).map content

/-- `load_weather_data` (lines 80-103): `None` when the weather directory
has no CSV files, else the concatenated table. -/
def load_weather_data (files : List FileEntry) (combined : WeatherTable) :
    Option WeatherTable :=
  if files.isEmpty then none else some combined

/-- `load_vegetation_data` (lines 105-119): select the latest vegetation
snapshot and parse its `ndvi` column (possibly absent). -/
def load_vegetation_data (entries : List FileEntry)
    (content : FileEntry → Option (List ℚ)) : Option (Option (List ℚ)) :=
  (get_latest_file entries isVegFile).map content

/-- `process_data_by_county` (lines 130-216): when any loader fails the run
aborts with no output (`none`); otherwise each county's record is built and
the per-county and combined snapshots are written. -/
def process_data_by_county (regs : List County)
    (fireEntries : List FileEntry) (fireContent : FileEntry → List FirePoint)
    (weatherFiles : List FileEntry) (weatherCombined : WeatherTable)
    (vegEntries : List FileEntry) (vegContent : FileEntry → Option (List ℚ)) :
    Option (List (List (String × Value)) × List (List (String × Value))) :=
  match load_fire_data fireEntries fireContent,
        load_weather_data weatherFiles weatherCombined,
        load_vegetation_data vegEntries vegContent with
  | some fires, some w, some veg =>
      some (save_processed_data (regs.map (fun c => county_record c fires w veg)))
  | _, _, _ => none

/-- A constructed overlap fixture: one bounding box shared by two regions. -/
def overlapBox : Bounds := { minlat := 0, maxlat := 10, minlon := 0, maxlon := 10 }

/-- First region of the overlap fixture. -/
def countyA : County := { id := "a", name := "A", bounds := overlapBox }

/-- Second region of the overlap fixture, with the same bounds. -/
def countyB : County := { id := "b", name := "B", bounds := overlapBox }

/-- The overlap-fixture registry: `countyA` first, `countyB` second. -/
def overlapRegistry : List County := [countyA, countyB]

/-- A fire point inside the shared bounds of the overlap fixture. -/
def overlapPoint : FirePoint := { latitude := 5, longitude := 5, frp := 100 }

/-- Demo fire directory: two matching snapshots and one unrelated file. -/
def demoFireEntries : List FileEntry :=
  [{ name := "california_fires_1.csv", ctime := 1 },
   { name := "california_fires_2.csv", ctime := 5 },
   { name := "notes.txt", ctime := 9 }]

/-- Demo weather directory entry. -/
def demoWeatherEntry : FileEntry := { name := "w.csv", ctime := 1 }

/-- Demo vegetation directory entry. -/
def demoVegEntry : FileEntry := { name := "sf_ndvi.csv", ctime := 1 }

theorem suitability_eq (s : RegionSummary) :
    suitability s = max 0 (min 100 (50 + weightedSum s * 50)) := rfl

theorem weightedSum_eq (s : RegionSummary) :
    weightedSum s =
      -(1/5) * min 1 (s.recentFireCount / 20)
      + -(1/10) * min 1 (s.meanFrp / 1000)
      + -(3/20) * ((s.meanTemperature - 50) / 50)
      + (1/4) * (s.meanHumidity / 100)
      + -(1/5) * (s.meanWindSpeed / 20)
      + (1/10) * s.meanNdvi := by
  simp [weightedSum, normalizedFactors, weights]
  ring

theorem suitability_le_of_weightedSum_le (s t : RegionSummary)
    (h : weightedSum s ≤ weightedSum t) : suitability s ≤ suitability t := by
  rw [suitability_eq, suitability_eq]
  have h50 : 50 + weightedSum s * 50 ≤ 50 + weightedSum t * 50 := by linarith
  exact max_le_max le_rfl (min_le_min le_rfl h50)

/-- C1 (counterexample): at the scenario input the code's risk level is
"High" with color "red", not "Moderate"/"yellow" as the claim states, even
though the suitability is 44.74 exactly as claimed. -/
theorem scenario_riskLevel_is_High :
    suitability scenarioSummary = 2237/50 ∧
    riskLevelOf (suitability scenarioSummary) = "High" ∧
    riskLevelOf (suitability scenarioSummary) ≠ "Moderate" ∧
    riskColorOf (suitability scenarioSummary) = "red" ∧
    riskColorOf (suitability scenarioSummary) ≠ "yellow" := by
  have h : suitability scenarioSummary = 2237/50 := by
    rw [suitability_eq, weightedSum_eq]
    norm_num [scenarioSummary]
  have hl : riskLevelOf (suitability scenarioSummary) = "High" := by
    norm_num [riskLevelOf, h]
  have hc : riskColorOf (suitability scenarioSummary) = "red" := by
    norm_num [riskColorOf, h]
  exact ⟨h, hl, by rw [hl]; decide, hc, by rw [hc]; decide⟩

/-- C1 (amended): for the scenario input `recentFireCount=10, meanFrp=2,
meanTemperature=75, meanHumidity=40, meanWindSpeed=8, meanNdvi=0.5`, the
scoring model produces normalized factors `[0.5, 0.002, 0.5, 0.4, 0.4, 0.5]`,
weighted sum `-0.1052`, suitability `44.74`, riskScore `31` - and riskLevel
"High" with riskColor "red" (not "Moderate"/"yellow": 44.74 is not above
the 60 threshold). -/
theorem scenario_eval :
    normalizedFactors scenarioSummary = [1/2, 1/500, 1/2, 2/5, 2/5, 1/2] ∧
    weightedSum scenarioSummary = -(1052/10000) ∧
    suitability scenarioSummary = 50 + (-(1052/10000)) * 50 ∧
    suitability scenarioSummary = 2237/50 ∧
    riskScoreOf (suitability scenarioSummary) = 31 ∧
    riskLevelOf (suitability scenarioSummary) = "High" ∧
    riskColorOf (suitability scenarioSummary) = "red" := by
  have h : suitability scenarioSummary = 2237/50 := by
    rw [suitability_eq, weightedSum_eq]
    norm_num [scenarioSummary]
  refine ⟨?_, ?_, ?_, h, ?_, ?_, ?_⟩
  · norm_num [normalizedFactors, scenarioSummary]
  · rw [weightedSum_eq]; norm_num [scenarioSummary]
  · rw [h]; norm_num
  · rw [h]
    have : ((2237:ℚ)/50) * (7/10) = 15659/500 := by norm_num
    simp only [riskScoreOf, pyInt, this]
    norm_num
  · simp [h, riskLevelOf]; norm_num
  · simp [h, riskColorOf]; norm_num

/-- C2 (counterexample): the normalized factors are not all clamped to
`[0,1]`: at wind speed 100 the wind factor is 5. -/
theorem normalization_not_clamped :
    normalizedFactors windySummary = [1/2, 1/500, 1/2, 2/5, 5, 1/2] ∧
    ¬ (∀ x ∈ normalizedFactors windySummary, 0 ≤ x ∧ x ≤ 1) := by
  have h : normalizedFactors windySummary = [1/2, 1/500, 1/2, 2/5, 5, 1/2] := by
    norm_num [normalizedFactors, windySummary]
  refine ⟨h, fun hall => ?_⟩
  have h5 : (5:ℚ) ∈ normalizedFactors windySummary := by rw [h]; norm_num
  have := (hall 5 h5).2
  norm_num at this

/-- C2 (amended): the six factors are computed as fires
`min(1, recentFireCount/20)`, FRP `min(1, meanFrp/1000)`, temperature
`(meanTemperature - 50)/50`, humidity `meanHumidity/100`, wind
`meanWindSpeed/20`, NDVI as-is; only the fire and FRP factors are clamped,
and those two lie in `[0,1]` for non-negative inputs (the remaining four
are unclamped linear formulas). -/
theorem normalization_clamping (s : RegionSummary)
    (hf : 0 ≤ s.recentFireCount) (hp : 0 ≤ s.meanFrp) :
    normalizedFactors s =
      [min 1 (s.recentFireCount / 20), min 1 (s.meanFrp / 1000),
       (s.meanTemperature - 50) / 50, s.meanHumidity / 100,
       s.meanWindSpeed / 20, s.meanNdvi] ∧
    (0 ≤ min 1 (s.recentFireCount / 20) ∧ min 1 (s.recentFireCount / 20) ≤ 1) ∧
    (0 ≤ min 1 (s.meanFrp / 1000) ∧ min 1 (s.meanFrp / 1000) ≤ 1) := by
  refine ⟨rfl, ⟨?_, min_le_left _ _⟩, ⟨?_, min_le_left _ _⟩⟩
  · exact le_min (by norm_num) (by positivity)
  · exact le_min (by norm_num) (by positivity)

/-- Witness for `normalization_clamping` at the scenario summary. -/
theorem normalization_clamping_witness :
    ((0:ℚ) ≤ scenarioSummary.recentFireCount ∧ (0:ℚ) ≤ scenarioSummary.meanFrp) ∧
    (0 ≤ min 1 (scenarioSummary.recentFireCount / 20) ∧
      min 1 (scenarioSummary.recentFireCount / 20) ≤ 1) :=
  ⟨⟨by norm_num [scenarioSummary], by norm_num [scenarioSummary]⟩,
    (normalization_clamping scenarioSummary (by norm_num [scenarioSummary])
      (by norm_num [scenarioSummary])).2.1⟩

/-- C3 (counterexample): increasing `recentFireCount` from 40 to 60 (both
above the cap of 20), all other fields fixed, leaves the suitability
unchanged, so it does not strictly decrease. -/
theorem suitability_not_strict :
    cappedSummaryA.recentFireCount < cappedSummaryB.recentFireCount ∧
    cappedSummaryA.meanFrp = cappedSummaryB.meanFrp ∧
    cappedSummaryA.meanTemperature = cappedSummaryB.meanTemperature ∧
    cappedSummaryA.meanHumidity = cappedSummaryB.meanHumidity ∧
    cappedSummaryA.meanWindSpeed = cappedSummaryB.meanWindSpeed ∧
    cappedSummaryA.meanNdvi = cappedSummaryB.meanNdvi ∧
    suitability cappedSummaryA = suitability cappedSummaryB := by
  refine ⟨by norm_num [cappedSummaryA, cappedSummaryB], rfl, rfl, rfl, rfl, rfl, ?_⟩
  rw [suitability_eq, suitability_eq, weightedSum_eq, weightedSum_eq]
  norm_num [cappedSummaryA, cappedSummaryB]

/-- C3 (amended): the suitability score is weakly monotone in each field,
with the signs the claim states: non-decreasing in `meanHumidity` and
`meanNdvi`, non-increasing in `recentFireCount`, `meanFrp`,
`meanTemperature` and `meanWindSpeed` (strictness fails at the fire/FRP
caps and at the 0/100 clamp). -/
theorem suitability_monotone (s : RegionSummary) (a b : ℚ) (hab : a ≤ b) :
    suitability { s with meanHumidity := a } ≤ suitability { s with meanHumidity := b } ∧
    suitability { s with meanNdvi := a } ≤ suitability { s with meanNdvi := b } ∧
    suitability { s with recentFireCount := b } ≤ suitability { s with recentFireCount := a } ∧
    suitability { s with meanFrp := b } ≤ suitability { s with meanFrp := a } ∧
    suitability { s with meanTemperature := b } ≤ suitability { s with meanTemperature := a } ∧
    suitability { s with meanWindSpeed := b } ≤ suitability { s with meanWindSpeed := a } := by
  refine ⟨?_, ?_, ?_, ?_, ?_, ?_⟩ <;>
    apply suitability_le_of_weightedSum_le <;>
    rw [weightedSum_eq, weightedSum_eq] <;> dsimp only
  · linarith
  · linarith
  · have hmin : min 1 (a / 20) ≤ min 1 (b / 20) :=
      min_le_min le_rfl (by linarith)
    linarith
  · have hmin : min 1 (a / 1000) ≤ min 1 (b / 1000) :=
      min_le_min le_rfl (by linarith)
    linarith
  · linarith
  · linarith

/-- Witness for `suitability_monotone`: humidity 0 versus 1 at the scenario
summary. -/
theorem suitability_monotone_witness :
    (0:ℚ) ≤ 1 ∧
    suitability { scenarioSummary with meanHumidity := 0 } ≤
      suitability { scenarioSummary with meanHumidity := 1 } :=
  ⟨by norm_num, (suitability_monotone scenarioSummary 0 1 (by norm_num)).1⟩

/-- C4 (confirmed): for non-negative inputs (indeed for all inputs: the
final clamp alone suffices) the suitability score lies in `[0,100]`. -/
theorem suitability_in_range (s : RegionSummary)
    (hf : 0 ≤ s.recentFireCount) (hp : 0 ≤ s.meanFrp)
    (ht : 0 ≤ s.meanTemperature) (hh : 0 ≤ s.meanHumidity)
    (hw : 0 ≤ s.meanWindSpeed) (hn : 0 ≤ s.meanNdvi) :
    0 ≤ suitability s ∧ suitability s ≤ 100 := by
  rw [suitability_eq]
  exact ⟨le_max_left 0 _, max_le (by norm_num) (min_le_left _ _)⟩

/-- Witness for `suitability_in_range` at the extreme fire count 10000. -/
theorem suitability_in_range_witness :
    ((0:ℚ) ≤ extremeSummary.recentFireCount ∧ (0:ℚ) ≤ extremeSummary.meanFrp ∧
      (0:ℚ) ≤ extremeSummary.meanTemperature ∧ (0:ℚ) ≤ extremeSummary.meanHumidity ∧
      (0:ℚ) ≤ extremeSummary.meanWindSpeed ∧ (0:ℚ) ≤ extremeSummary.meanNdvi) ∧
    (0 ≤ suitability extremeSummary ∧ suitability extremeSummary ≤ 100) :=
  ⟨by norm_num [extremeSummary],
    suitability_in_range extremeSummary (by norm_num [extremeSummary])
      (by norm_num [extremeSummary]) (by norm_num [extremeSummary])
      (by norm_num [extremeSummary]) (by norm_num [extremeSummary])
      (by norm_num [extremeSummary])⟩

/-- C5 (confirmed): `assign_to_county` returns the id of the first region
in registry order whose bounds contain the point (all edges inclusive) and
`none` when no region's bounds contain it; in particular, for a point in
two overlapping regions the region listed first wins. -/
theorem assign_first_match (regs : List County) (lat lon : ℚ) :
    assign_to_county regs lat lon =
      Option.map County.id (regs.find? (fun c => boundsContain c.bounds lat lon)) ∧
    (assign_to_county regs lat lon = none ↔
      ∀ c ∈ regs, boundsContain c.bounds lat lon = false) ∧
    (∀ c₁ c₂ rest, boundsContain c₁.bounds lat lon = true →
      boundsContain c₂.bounds lat lon = true →
      assign_to_county (c₁ :: c₂ :: rest) lat lon = some c₁.id) := by
  refine ⟨?_, ?_, ?_⟩
  · induction regs with
    | nil => rfl
    | cons c rest ih =>
        by_cases h : boundsContain c.bounds lat lon = true
        · simp [assign_to_county, List.find?, h]
        · simp only [Bool.not_eq_true] at h
          simp [assign_to_county, List.find?, h, ih]
  · induction regs with
    | nil => simp [assign_to_county]
    | cons c rest ih =>
        by_cases h : boundsContain c.bounds lat lon = true
        · simp [assign_to_county, h]
        · simp only [Bool.not_eq_true] at h
          simp [assign_to_county, h, ih]
  · intro c₁ c₂ rest h₁ _h₂
    simp [assign_to_county, h₁]

/-- Witness for `assign_first_match`: in the overlap fixture the point
`(5,5)` lies in both regions and is assigned to `countyA`, first in
registry order. -/
theorem assign_first_match_witness :
    assign_to_county overlapRegistry 5 5 = some countyA.id :=
  (assign_first_match overlapRegistry 5 5).2.2 countyA countyB []
    (by decide) (by decide)

/-- C6 (counterexample): with two regions sharing the same bounds, the fire
point inside both is counted by the aggregator toward the second region as
well (`recent_fires = 1` for `countyB`), whereas first-match assignment
resolves no point to `countyB` at all (the filter by
`assign_to_county = some "b"` is empty). -/
theorem fire_count_double_counts :
    recent_fires countyB.bounds [overlapPoint] = 1 ∧
    assign_to_county overlapRegistry overlapPoint.latitude overlapPoint.longitude
      = some countyA.id ∧
    (([overlapPoint].filter (fun p =>
        assign_to_county overlapRegistry p.latitude p.longitude
          == some countyB.id)).length) = 0 := by
  refine ⟨by decide, by decide, by decide⟩

/-- C6 (amended): per region, `recentFireCount` is the number of fire
points lying within that region's own bounds (inclusive), and `meanFrp` is
the mean `frp` over exactly those points, `0` when the subset is empty with
no error; a point contained in two regions' bounds is counted toward both
regions, not only the one first in registry order. -/
theorem aggregate_fire_spec (b : Bounds) (fires : List FirePoint) :
    recent_fires b fires
      = fires.countP (fun p => boundsContain b p.latitude p.longitude) ∧
    (countyFires b fires = [] → avg_frp b fires = 0) ∧
    (countyFires b fires ≠ [] →
      avg_frp b fires * (recent_fires b fires : ℚ)
        = ((countyFires b fires).map FirePoint.frp).sum) ∧
    (∀ (b' : Bounds) (p : FirePoint),
      boundsContain b p.latitude p.longitude = true →
      boundsContain b' p.latitude p.longitude = true →
      recent_fires b (p :: fires) = recent_fires b fires + 1 ∧
      recent_fires b' (p :: fires) = recent_fires b' fires + 1) := by
  refine ⟨?_, ?_, ?_, ?_⟩
  · simp [recent_fires, countyFires, List.countP_eq_length_filter]
  · intro h
    simp [avg_frp, h]
  · intro h
    have h1 : (countyFires b fires).length ≠ 0 := by
      simpa [List.length_eq_zero] using h
    have hlen : ((countyFires b fires).length : ℚ) ≠ 0 := Nat.cast_ne_zero.mpr h1
    simp only [avg_frp, recent_fires, listMean, List.length_map]
    rw [if_neg (by simpa [List.isEmpty_iff] using h)]
    exact div_mul_cancel₀ _ hlen
  · intro b' p hb hb'
    constructor <;> simp [recent_fires, countyFires, List.filter_cons, hb, hb']

/-- Witness for `aggregate_fire_spec`: a region with zero fire points yields
`meanFrp = 0`, not an error. -/
theorem aggregate_fire_spec_witness :
    avg_frp overlapBox [] = 0 :=
  (aggregate_fire_spec overlapBox []).2.1 rfl

/-- C7 (counterexample): with the `TAVG` column absent from the weather
source, processing does not abort: the default temperature 70 is
substituted, the remaining columns are averaged, and the pipeline still
produces output. -/
theorem missing_field_no_abort :
    county_weather noTavgTable =
      { temperature := 70, humidity := 40, windSpeed := 8,
        windDirection := "NW" } ∧
    (process_data_by_county COUNTIES
        [{ name := "california_fires_2024.csv", ctime := 1 }] (fun _ => [])
        [demoWeatherEntry] noTavgTable
        [demoVegEntry] (fun _ => some [1/2])).isSome = true := by
  constructor
  · simp [county_weather, noTavgTable, listMean]
  · decide

/-- C7 (amended): a missing weather column never aborts the run: the
source-wide defaults are substituted (`temperature` 70, `humidity` 50,
`windSpeed` 5) and processing continues; no `SchemaValidationError`
exists in the code. -/
theorem weather_defaults (w : WeatherTable) :
    (w.tavg = none → (county_weather w).temperature = 70) ∧
    (w.rhavg = none → (county_weather w).humidity = 50) ∧
    (w.awnd = none → (county_weather w).windSpeed = 5) ∧
    (county_weather w).windDirection = "NW" := by
  refine ⟨fun h => ?_, fun h => ?_, fun h => ?_, rfl⟩ <;>
    simp [county_weather, h]

/-- Witness for `weather_defaults` at the fully-empty weather table. -/
theorem weather_defaults_witness :
    (county_weather ⟨none, none, none⟩).temperature = 70 ∧
    (county_weather ⟨none, none, none⟩).humidity = 50 ∧
    (county_weather ⟨none, none, none⟩).windSpeed = 5 := by
  have h := weather_defaults ⟨none, none, none⟩
  exact ⟨h.1 rfl, h.2.1 rfl, h.2.2.1 rfl⟩

theorem maxByCtime_mem (best : FileEntry) (l : List FileEntry) :
    maxByCtime best l = best ∨ maxByCtime best l ∈ l := by
  induction l generalizing best with
  | nil => exact Or.inl rfl
  | cons f rest ih =>
      by_cases h : best.ctime < f.ctime
      · simp only [maxByCtime, if_pos h]
        rcases ih f with h1 | h1
        · exact Or.inr (by rw [h1]; exact List.mem_cons_self _ _)
        · exact Or.inr (List.mem_cons_of_mem _ h1)
      · simp only [maxByCtime, if_neg h]
        rcases ih best with h1 | h1
        · exact Or.inl h1
        · exact Or.inr (List.mem_cons_of_mem _ h1)

theorem le_maxByCtime (best : FileEntry) (l : List FileEntry) :
    best.ctime ≤ (maxByCtime best l).ctime ∧
    ∀ g ∈ l, g.ctime ≤ (maxByCtime best l).ctime := by
  induction l generalizing best with
  | nil => exact ⟨le_rfl, by simp⟩
  | cons f rest ih =>
      by_cases h : best.ctime < f.ctime
      · simp only [maxByCtime, if_pos h]
        obtain ⟨h1, h2⟩ := ih f
        refine ⟨le_of_lt (lt_of_lt_of_le h h1), ?_⟩
        intro g hg
        rcases List.mem_cons.mp hg with rfl | hg'
        · exact h1
        · exact h2 g hg'
      · simp only [maxByCtime, if_neg h]
        obtain ⟨h1, h2⟩ := ih best
        refine ⟨h1, ?_⟩
        intro g hg
        rcases List.mem_cons.mp hg with rfl | hg'
        · exact le_trans (le_of_not_lt h) h1
        · exact h2 g hg'

/-- C8 (confirmed): `get_latest_file` returns `none` exactly when zero
entries match the pattern; when some entry matches, it returns a matching
entry of the directory whose creation timestamp is maximal among the
matches; and when the fire source has zero matches the whole pipeline run
returns `none` - it aborts and writes no output. -/
theorem get_latest_file_spec (entries : List FileEntry) (pat : String → Bool) :
    (get_latest_file entries pat = none ↔ ∀ e ∈ entries, pat e.name = false) ∧
    (∀ f, get_latest_file entries pat = some f →
      f ∈ entries ∧ pat f.name = true ∧
      ∀ g ∈ entries, pat g.name = true → g.ctime ≤ f.ctime) ∧
    (∀ (regs : List County) (fireContent : FileEntry → List FirePoint)
        (weatherFiles : List FileEntry) (wc : WeatherTable)
        (vegEntries : List FileEntry) (vegContent : FileEntry → Option (List ℚ)),
      get_latest_file entries isFireFile = none →
      process_data_by_county regs entries fireContent weatherFiles wc
        vegEntries vegContent = none) := by
  refine ⟨?_, ?_, ?_⟩
  · have hnone : get_latest_file entries pat = none ↔
        entries.filter (fun e => pat e.name) = [] := by
      rcases hf : entries.filter (fun e => pat e.name) with _ | ⟨f, rest⟩ <;>
        simp [get_latest_file, hf]
    rw [hnone, List.filter_eq_nil_iff]
    simp [Bool.not_eq_true]
  · intro f hf
    unfold get_latest_file at hf
    rcases hfl : entries.filter (fun e => pat e.name) with _ | ⟨x, rest⟩
    · rw [hfl] at hf; cases hf
    · rw [hfl] at hf
      injection hf with hf
      have hmem : f ∈ x :: rest := by
        rcases maxByCtime_mem x rest with h1 | h1
        · rw [← hf, h1]; exact List.mem_cons_self _ _
        · rw [← hf]; exact List.mem_cons_of_mem _ h1
      have hsub : ∀ y ∈ x :: rest, y ∈ entries ∧ pat y.name = true := by
        intro y hy
        rw [← hfl] at hy
        exact ⟨List.mem_of_mem_filter hy, by simpa using List.of_mem_filter hy⟩
      refine ⟨(hsub f hmem).1, (hsub f hmem).2, ?_⟩
      intro g hg hpg
      have hgf : g ∈ entries.filter (fun e => pat e.name) :=
        List.mem_filter.mpr ⟨hg, by simpa using hpg⟩
      rw [hfl] at hgf
      obtain ⟨h1, h2⟩ := le_maxByCtime x rest
      rw [← hf]
      rcases List.mem_cons.mp hgf with rfl | hgr
      · exact h1
      · exact h2 g hgr
  · intro regs fireContent weatherFiles wc vegEntries vegContent h
    simp [process_data_by_county, load_fire_data, h]

/-- Witness for `get_latest_file_spec` on a demo directory: the selected
snapshot `california_fires_2.csv` matches the pattern, is a member of the
directory, and has a timestamp no older than the other match. -/
theorem get_latest_file_spec_witness :
    (⟨"california_fires_2.csv", (5:ℚ)⟩ : FileEntry) ∈ demoFireEntries ∧
    isFireFile "california_fires_2.csv" = true ∧
    (FileEntry.mk "california_fires_1.csv" 1).ctime ≤
      (FileEntry.mk "california_fires_2.csv" 5).ctime := by
  have h := (get_latest_file_spec demoFireEntries isFireFile).2.1
    ⟨"california_fires_2.csv", 5⟩ (by decide)
  exact ⟨h.1, h.2.1,
    h.2.2 ⟨"california_fires_1.csv", 1⟩ (by decide) (by decide)⟩

/-- C9 (counterexample): the combined snapshot written by
`save_processed_data` keeps the raw column set: it has a nested
`weatherConditions` column and no `weather_temperature` column, while the
per-region file of the same run does carry the `weather_`-prefixed
columns. -/
theorem save_combined_not_flattened :
    recordKeys ((save_processed_data
        [county_record sfCounty [] noTavgTable none]).2.headI) = rawRecordKeys ∧
    "weatherConditions" ∈ rawRecordKeys ∧
    "weather_temperature" ∉ rawRecordKeys ∧
    recordKeys ((save_processed_data
        [county_record sfCounty [] noTavgTable none]).1.headI) = flatRecordKeys ∧
    "weather_temperature" ∈ flatRecordKeys := by
  exact ⟨rfl, by decide, by decide, rfl, by decide⟩

/-- C9 (amended): the combined snapshot contains one record per region,
but it is written from the raw, unflattened records: its column set keeps
the nested `weatherConditions` column and lacks the `weather_`-prefixed
columns; only the individual per-region files use the flattened schema,
so the two column sets differ. -/
theorem save_combined_schema (regs : List County) (fires : List FirePoint)
    (w : WeatherTable) (veg : Option (List ℚ)) (c : County) :
    (save_processed_data (regs.map (fun r => county_record r fires w veg))).2
      = regs.map (fun r => county_record r fires w veg) ∧
    (save_processed_data (regs.map (fun r => county_record r fires w veg))).2.length
      = regs.length ∧
    recordKeys (county_record c fires w veg) = rawRecordKeys ∧
    recordKeys (flattenRecord (county_record c fires w veg)) = flatRecordKeys ∧
    rawRecordKeys ≠ flatRecordKeys := by
  refine ⟨rfl, by simp [save_processed_data], rfl, rfl, by decide⟩

/-- C10 (confirmed): the persisted per-region `weather_windDirection` value
is the constant "NW" for every input, so two runs with different fire,
weather and vegetation sources persist identical wind directions: the
output wind direction is independent of the input data. -/
theorem windDirection_constant (c : County) (fires₁ fires₂ : List FirePoint)
    (w₁ w₂ : WeatherTable) (veg₁ veg₂ : Option (List ℚ)) :
    (flattenRecord (county_record c fires₁ w₁ veg₁)).lookup "weather_windDirection"
      = some (Value.str "NW") ∧
    (flattenRecord (county_record c fires₁ w₁ veg₁)).lookup "weather_windDirection"
      = (flattenRecord (county_record c fires₂ w₂ veg₂)).lookup "weather_windDirection" := by
  exact ⟨rfl, rfl⟩

end BurnAI
